import Mathlib

/-!
Verification of the CATrack inspection client: a shallow embedding of the
AI extraction client (cattrackApi: fetchWithTimeout, handleResponse,
sanitizeAnomalies, runInspection), the useInspection hook's hasCritical
derivation, and the ConfirmScreen result aggregation, together with proofs
of the specified properties.
-/

namespace CatTrack

/-- Anomaly record, mirroring the Anomaly interface of types/inspection.ts.
Severity is a plain string because the remote service is untrusted: the
whole point of the sanitizer is that out-of-enum strings can arrive. -/
structure Anomaly where
  component : String
  component_location : String
  issue : String
  condition_description : String
  severity : String
  safety_impact_assessment : String
  operational_impact : String
  estimated_timeline : String
  recommended_action : String
  part_number : Option String
  evidence_backed : Bool
  technician_review_required : Bool
  confidence_score : Nat
  is_global_safety_override : Bool
  segment_mismatch_flag : Bool
  global_override_category : Option String
  technician_confirmed : Option Bool
  technician_severity_override : Option String
  technician_override_rationale : Option String
  technician_notes : Option String
  deriving Repr, DecidableEq

/-- InspectionSummary from types/inspection.ts. -/
structure InspectionSummary where
  asset : String
  status : String
  overall_operational_impact : String
  deriving Repr, DecidableEq

/-- Untrusted inspection_output field of a response body: either field may
be missing at runtime (the TS types promise them, the wire does not). -/
structure RawOutput where
  inspection_summary : Option InspectionSummary
  anomalies : Option (List Anomaly)
  deriving Repr, DecidableEq

/-- Untrusted JSON body of a 2xx extraction response. -/
structure RawBody where
  context_path : Option String
  inspection_output : Option RawOutput
  job_id : Option String
  deriving Repr, DecidableEq

/-- The shape runInspection hands back after its post-flight validation:
anomalies is known to be an array; the summary was never checked and so
stays optional. -/
structure ValidOutput where
  inspection_summary : Option InspectionSummary
  anomalies : List Anomaly
  deriving Repr, DecidableEq

/-- Validated extraction response returned by runInspection. -/
structure ValidResponse where
  context_path : Option String
  inspection_output : ValidOutput
  job_id : Option String
  deriving Repr, DecidableEq

/-- ApiError from types/inspection.ts: status code plus message. -/
structure ApiError where
  status : Nat
  message : String
  deriving Repr, DecidableEq

-- ── Sanitizer (cattrackApi.ts, sanitizeAnomalies) ───────────────────────────

/-- VALID_SEVERITIES from cattrackApi.ts. -/
def VALID_SEVERITIES : List String := ["Critical", "Moderate", "Low"]

/-- The per-anomaly body of the map inside sanitizeAnomalies: coerce an
out-of-enum severity to Low forcing technician review, and force
evidence_backed to false when no image was sent. -/
def sanitizeOne (imageWasSent : Bool) (a : Anomaly) : Anomaly :=
  { a with
    severity := if a.severity ∈ VALID_SEVERITIES then a.severity else "Low",
    technician_review_required :=
      if a.severity ∈ VALID_SEVERITIES then a.technician_review_required else true,
    evidence_backed := if imageWasSent then a.evidence_backed else false }

/-- sanitizeAnomalies from cattrackApi.ts: a map of sanitizeOne over the
anomaly list. -/
def sanitizeAnomalies (anomalies : List Anomaly) (imageWasSent : Bool) : List Anomaly :=
  anomalies.map (sanitizeOne imageWasSent)

/-- An anomaly used as a base value for concrete test inputs. -/
def baseAnomaly : Anomaly :=
  { component := "Access Ladder"
    component_location := "Left side"
    issue := "Bent rail"
    condition_description := "Rail bent near lowest step"
    severity := "Low"
    safety_impact_assessment := "Fall risk during mounting"
    operational_impact := "None"
    estimated_timeline := "30 days"
    recommended_action := "Replace ladder assembly"
    part_number := none
    evidence_backed := false
    technician_review_required := false
    confidence_score := 90
    is_global_safety_override := false
    segment_mismatch_flag := false
    global_override_category := none
    technician_confirmed := none
    technician_severity_override := none
    technician_override_rationale := none
    technician_notes := none }

-- ── Claims about the sanitizer ──────────────────────────────────────────────

/-- C4: an anomaly with severity outside {Critical, Moderate, Low} is
sanitized to severity Low with technician review forced; an anomaly with an
in-enum severity keeps its severity and review flag unchanged. -/
theorem sanitize_severity_coercion (xs : List Anomaly) (flag : Bool) (i : Nat)
    (h : i < xs.length) (h2 : i < (sanitizeAnomalies xs flag).length) :
    (xs[i].severity ∉ VALID_SEVERITIES →
      (sanitizeAnomalies xs flag)[i].severity = "Low" ∧
      (sanitizeAnomalies xs flag)[i].technician_review_required = true) ∧
    (xs[i].severity ∈ VALID_SEVERITIES →
      (sanitizeAnomalies xs flag)[i].severity = xs[i].severity ∧
      (sanitizeAnomalies xs flag)[i].technician_review_required
        = xs[i].technician_review_required) := by
  simp only [sanitizeAnomalies, List.getElem_map]
  by_cases hm : xs[i].severity ∈ VALID_SEVERITIES <;>
    simp [sanitizeOne, hm]

/-- Witness for C4: a bogus severity is coerced, a valid one preserved. -/
theorem sanitize_severity_coercion_witness :
    (sanitizeAnomalies [{ baseAnomaly with severity := "BOGUS" },
        { baseAnomaly with severity := "Critical" }] true)[0].severity = "Low" ∧
    (sanitizeAnomalies [{ baseAnomaly with severity := "BOGUS" },
        { baseAnomaly with severity := "Critical" }] true)[0].technician_review_required
      = true ∧
    (sanitizeAnomalies [{ baseAnomaly with severity := "BOGUS" },
        { baseAnomaly with severity := "Critical" }] true)[1].severity = "Critical" := by
  have h := sanitize_severity_coercion
    [{ baseAnomaly with severity := "BOGUS" }, { baseAnomaly with severity := "Critical" }]
    true 0 (by decide) (by decide)
  have h1 := sanitize_severity_coercion
    [{ baseAnomaly with severity := "BOGUS" }, { baseAnomaly with severity := "Critical" }]
    true 1 (by decide) (by decide)
  refine ⟨(h.1 (by decide)).1, (h.1 (by decide)).2, ?_⟩
  have := (h1.2 (by decide)).1
  simpa using this

/-- C5: sanitizing with imageWasSubmitted false forces evidence_backed to
false; with imageWasSubmitted true evidence_backed is passed through. -/
theorem sanitize_evidence_parity (xs : List Anomaly) (i : Nat)
    (h : i < xs.length)
    (h2 : i < (sanitizeAnomalies xs false).length)
    (h3 : i < (sanitizeAnomalies xs true).length) :
    (sanitizeAnomalies xs false)[i].evidence_backed = false ∧
    (sanitizeAnomalies xs true)[i].evidence_backed = xs[i].evidence_backed := by
  simp only [sanitizeAnomalies, List.getElem_map]
  simp [sanitizeOne]

/-- Witness for C5: a claimed evidence-backed anomaly loses the claim when
no image was submitted, and keeps it when one was. -/
theorem sanitize_evidence_parity_witness :
    (sanitizeAnomalies [{ baseAnomaly with evidence_backed := true }] false)[0].evidence_backed
      = false ∧
    (sanitizeAnomalies [{ baseAnomaly with evidence_backed := true }] true)[0].evidence_backed
      = true := by
  have h := sanitize_evidence_parity [{ baseAnomaly with evidence_backed := true }] 0
    (by decide) (by decide) (by decide)
  exact ⟨h.1, by simpa using h.2⟩

/-- C9: sanitize is idempotent with the same imageWasSubmitted flag. -/
theorem sanitize_idempotent (xs : List Anomaly) (flag : Bool) :
    sanitizeAnomalies (sanitizeAnomalies xs flag) flag = sanitizeAnomalies xs flag := by
  simp only [sanitizeAnomalies, List.map_map]
  apply List.map_congr_left
  intro a _
  show sanitizeOne flag (sanitizeOne flag a) = sanitizeOne flag a
  have hLow : ("Low" : String) ∈ VALID_SEVERITIES := by
    simp [VALID_SEVERITIES]
  by_cases hm : a.severity ∈ VALID_SEVERITIES
  · cases flag <;> simp [sanitizeOne, hm]
  · cases flag <;> simp [sanitizeOne, hm, hLow]

/-- C10: sanitize is total and repairs in place: the output has exactly one
anomaly per input anomaly, and every field other than severity,
technician_review_required and evidence_backed is unchanged. -/
theorem sanitize_frame (xs : List Anomaly) (flag : Bool) :
    (sanitizeAnomalies xs flag).length = xs.length ∧
    ∀ i (h : i < xs.length) (h2 : i < (sanitizeAnomalies xs flag).length),
      (sanitizeAnomalies xs flag)[i].component = xs[i].component ∧
      (sanitizeAnomalies xs flag)[i].component_location = xs[i].component_location ∧
      (sanitizeAnomalies xs flag)[i].issue = xs[i].issue ∧
      (sanitizeAnomalies xs flag)[i].condition_description = xs[i].condition_description ∧
      (sanitizeAnomalies xs flag)[i].safety_impact_assessment
        = xs[i].safety_impact_assessment ∧
      (sanitizeAnomalies xs flag)[i].operational_impact = xs[i].operational_impact ∧
      (sanitizeAnomalies xs flag)[i].estimated_timeline = xs[i].estimated_timeline ∧
      (sanitizeAnomalies xs flag)[i].recommended_action = xs[i].recommended_action ∧
      (sanitizeAnomalies xs flag)[i].part_number = xs[i].part_number ∧
      (sanitizeAnomalies xs flag)[i].confidence_score = xs[i].confidence_score ∧
      (sanitizeAnomalies xs flag)[i].is_global_safety_override
        = xs[i].is_global_safety_override ∧
      (sanitizeAnomalies xs flag)[i].segment_mismatch_flag = xs[i].segment_mismatch_flag ∧
      (sanitizeAnomalies xs flag)[i].global_override_category
        = xs[i].global_override_category ∧
      (sanitizeAnomalies xs flag)[i].technician_confirmed = xs[i].technician_confirmed ∧
      (sanitizeAnomalies xs flag)[i].technician_severity_override
        = xs[i].technician_severity_override ∧
      (sanitizeAnomalies xs flag)[i].technician_override_rationale
        = xs[i].technician_override_rationale ∧
      (sanitizeAnomalies xs flag)[i].technician_notes = xs[i].technician_notes := by
  refine ⟨by simp [sanitizeAnomalies], ?_⟩
  intro i h h2
  simp only [sanitizeAnomalies, List.getElem_map]
  simp [sanitizeOne]

/-- Witness for C10: length preservation and frame at a concrete input. -/
theorem sanitize_frame_witness :
    (sanitizeAnomalies [{ baseAnomaly with severity := "BOGUS" }] false).length = 1 ∧
    (sanitizeAnomalies [{ baseAnomaly with severity := "BOGUS" }] false)[0].component
      = "Access Ladder" ∧
    (sanitizeAnomalies [{ baseAnomaly with severity := "BOGUS" }] false)[0].confidence_score
      = 90 := by
  have h := sanitize_frame [{ baseAnomaly with severity := "BOGUS" }] false
  have h0 := h.2 0 (by decide) (by decide)
  exact ⟨h.1, by simpa using h0.1, by simpa using h0.2.2.2.2.2.2.2.2.2.1⟩

-- ── Transport layer (cattrackApi.ts: fetchWithTimeout, handleResponse,
-- runInspection) ────────────────────────────────────────────────────────────

/-- Errors escaping runInspection: ApiError instances (thrown by
fetchWithTimeout on timeout, by handleResponse on non-2xx and by the
post-flight validation) or any other exception, rethrown untouched. -/
inductive RunError where
  | api (e : ApiError)
  | other (message : String)
  deriving Repr, DecidableEq

/-- What one fetch of the extraction endpoint can yield: the deadline fires
(fetchWithTimeout turns the abort into ApiError 504 "Request timed out"),
the fetch itself rejects (a non-ApiError exception), or an HTTP response
with a status, a parsed JSON body and a raw text body. -/
inductive Outcome where
  | timeout
  | netFail (message : String)
  | httpResponse (status : Nat) (body : RawBody) (text : String)
  deriving Repr, DecidableEq

/-- response.ok of the Fetch API: status in the 2xx range. -/
def isOkStatus (status : Nat) : Bool :=
  decide (200 ≤ status) && decide (status < 300)

/-- handleResponse from cattrackApi.ts: non-ok statuses become an ApiError
carrying the first 300 characters of the body text; ok responses hand the
parsed body through. -/
def handleResponse (status : Nat) (body : RawBody) (text : String) :
    Except RunError RawBody :=
  if isOkStatus status then Except.ok body
  else Except.error (RunError.api ⟨status, text.take 300⟩)

/-- One iteration of runInspection's attempt loop: the 502/504 check before
parsing, handleResponse, the post-flight validation that inspection_output
exists and anomalies is an array, then sanitization. -/
def attemptExtract (imageWasSent : Bool) (o : Outcome) : Except RunError ValidResponse :=
  match o with
  | Outcome.timeout => Except.error (RunError.api ⟨504, "Request timed out"⟩)
  | Outcome.netFail m => Except.error (RunError.other m)
  | Outcome.httpResponse status body text =>
    if status == 502 || status == 504 then
      Except.error (RunError.api ⟨status,
        if status == 502 then "Service temporarily unavailable"
        else "Processing took too long — try again"⟩)
    else
      match handleResponse status body text with
      | Except.error e => Except.error e
      | Except.ok result =>
        match result.inspection_output with
        | none => Except.error (RunError.api ⟨500, "Malformed response: anomalies missing"⟩)
        | some out =>
          match out.anomalies with
          | none => Except.error (RunError.api ⟨500, "Malformed response: anomalies missing"⟩)
          | some anoms =>
            Except.ok
              { context_path := result.context_path
                inspection_output :=
                  { inspection_summary := out.inspection_summary
                    anomalies := sanitizeAnomalies anoms imageWasSent }
                job_id := result.job_id }

/-- The retry condition of runInspection's catch block and inline 502/504
check: only an ApiError whose status is 502 or 504 triggers the retry. -/
def retryableError (e : RunError) : Bool :=
  match e with
  | RunError.api err => err.status == 502 || err.status == 504
  | RunError.other _ => false

/-- runInspection from cattrackApi.ts, after pre-flight validation and
encoding: the two-attempt loop, indexed by the outcome each fetch would
produce. Returns the caller-visible result and how many fetches ran. -/
def runInspection (o0 o1 : Outcome) (imageWasSent : Bool) :
    Except RunError ValidResponse × Nat :=
  match attemptExtract imageWasSent o0 with
  | Except.ok v => (Except.ok v, 1)
  | Except.error e =>
    if retryableError e then (attemptExtract imageWasSent o1, 2)
    else (Except.error e, 1)

/-- A well-formed 200 body used by concrete transport scenarios. -/
def goodBody : RawBody :=
  { context_path := some "runs/ctx-001"
    inspection_output := some
      { inspection_summary := some ⟨"CAT D6N Dozer", "pass", "None"⟩
        anomalies := some [] }
    job_id := some "job-001" }

/-- The validated response runInspection produces from goodBody. -/
def goodResponse : ValidResponse :=
  { context_path := some "runs/ctx-001"
    inspection_output :=
      { inspection_summary := some ⟨"CAT D6N Dozer", "pass", "None"⟩
        anomalies := [] }
    job_id := some "job-001" }

-- ── Claims about the transport layer ────────────────────────────────────────

/-- Counterexample to C1: a first-attempt deadline timeout IS followed by a
second request. With the second outcome a valid 200, the caller receives
that second attempt's success and the fetch counter reads 2, refuting
"a plain timeout is never followed by a second request"; with both
attempts timing out, the caller still sees two fetches. -/
theorem timeout_retry_counterexample :
    runInspection Outcome.timeout (Outcome.httpResponse 200 goodBody "") true
      = (Except.ok goodResponse, 2) ∧
    runInspection Outcome.timeout Outcome.timeout true
      = (Except.error (RunError.api ⟨504, "Request timed out"⟩), 2) := by
  constructor <;> rfl

/-- C1 amended: the deadline firing surfaces TypedError 504 "Request timed
out", but because the timeout carries status 504 it does trigger the single
retry: any first-attempt timeout is followed by exactly one further fetch
whose outcome the caller receives, and two consecutive timeouts surface
TypedError 504 "Request timed out". -/
theorem timeout_triggers_single_retry (o1 : Outcome) (flag : Bool) :
    runInspection Outcome.timeout o1 flag = (attemptExtract flag o1, 2) ∧
    runInspection Outcome.timeout Outcome.timeout flag
      = (Except.error (RunError.api ⟨504, "Request timed out"⟩), 2) := by
  constructor <;> rfl

/-- Counterexample to C2: a 200 response whose body carries an
inspection_output with an anomalies array but NO summary object is accepted
by runInspection, not rejected with TypedError 500. -/
theorem missing_summary_accepted_counterexample :
    runInspection
      (Outcome.httpResponse 200
        { context_path := none
          inspection_output := some { inspection_summary := none, anomalies := some [] }
          job_id := none } "")
      Outcome.timeout true
      = (Except.ok
          { context_path := none
            inspection_output := { inspection_summary := none, anomalies := [] }
            job_id := none }, 1) := by
  rfl

/-- C2 amended: for a 2xx response, runInspection rejects a body whose
inspection_output is missing, or whose anomalies field is missing or not an
array, with TypedError 500 "Malformed response: anomalies missing" and no
retry; the summary object is never validated. -/
theorem malformed_body_rejected (status : Nat) (cp jid : Option String)
    (sum : Option InspectionSummary) (text : String) (o1 : Outcome) (flag : Bool)
    (h : isOkStatus status = true) :
    runInspection
      (Outcome.httpResponse status
        { context_path := cp, inspection_output := none, job_id := jid } text)
      o1 flag
      = (Except.error (RunError.api ⟨500, "Malformed response: anomalies missing"⟩), 1) ∧
    runInspection
      (Outcome.httpResponse status
        { context_path := cp
          inspection_output := some { inspection_summary := sum, anomalies := none }
          job_id := jid } text)
      o1 flag
      = (Except.error (RunError.api ⟨500, "Malformed response: anomalies missing"⟩), 1) := by
  have hrange : 200 ≤ status ∧ status < 300 := by
    simpa [isOkStatus, Bool.and_eq_true, decide_eq_true_iff] using h
  have h502 : (status == 502) = false := by
    have : status ≠ 502 := by omega
    simpa using this
  have h504 : (status == 504) = false := by
    have : status ≠ 504 := by omega
    simpa using this
  constructor <;>
    simp [runInspection, attemptExtract, handleResponse, retryableError, h, h502, h504]

/-- Witness for C2 amended: a 200 body with inspection_output missing, and
a 200 body whose anomalies field is missing, both fail with the 500 error
after a single fetch. -/
theorem malformed_body_rejected_witness :
    runInspection
      (Outcome.httpResponse 200
        { context_path := none, inspection_output := none, job_id := none } "")
      Outcome.timeout true
      = (Except.error (RunError.api ⟨500, "Malformed response: anomalies missing"⟩), 1) ∧
    runInspection
      (Outcome.httpResponse 200
        { context_path := none
          inspection_output := some { inspection_summary := none, anomalies := none }
          job_id := none } "")
      Outcome.timeout true
      = (Except.error (RunError.api ⟨500, "Malformed response: anomalies missing"⟩), 1) := by
  exact malformed_body_rejected 200 none none none "" Outcome.timeout true (by decide)

/-- C3: an HTTP 502 or 504 response on the first attempt leads to exactly
one retry whose outcome is surfaced to the caller (so 502 followed by a
valid 200 yields the success), while any other non-2xx status fails
immediately, after a single fetch, with no retry. -/
theorem retry_once_on_502_504 (s s2 : Nat) (body body2 : RawBody)
    (text text2 : String) (o1 o2 : Outcome) (flag flag2 : Bool) :
    ((s = 502 ∨ s = 504) →
      runInspection (Outcome.httpResponse s body text) o1 flag
        = (attemptExtract flag o1, 2)) ∧
    (isOkStatus s2 = false → s2 ≠ 502 → s2 ≠ 504 →
      runInspection (Outcome.httpResponse s2 body2 text2) o2 flag2
        = (Except.error (RunError.api ⟨s2, text2.take 300⟩), 1)) := by
  constructor
  · rintro (rfl | rfl) <;> rfl
  · intro hok h502 h504
    have hb502 : (s2 == 502) = false := by simpa using h502
    have hb504 : (s2 == 504) = false := by simpa using h504
    simp [runInspection, attemptExtract, handleResponse, retryableError,
      hok, hb502, hb504]

/-- Witness for C3: HTTP 502 then a valid 200 yields the success after two
fetches; HTTP 503 fails at once with its body text, after one fetch. -/
theorem retry_once_on_502_504_witness :
    runInspection (Outcome.httpResponse 502 goodBody "bad gateway")
      (Outcome.httpResponse 200 goodBody "") true
      = (Except.ok goodResponse, 2) ∧
    runInspection (Outcome.httpResponse 503 goodBody "service unavailable")
      (Outcome.httpResponse 200 goodBody "") true
      = (Except.error (RunError.api ⟨503, "service unavailable".take 300⟩), 1) := by
  have h := retry_once_on_502_504 502 503 goodBody goodBody "bad gateway"
    "service unavailable" (Outcome.httpResponse 200 goodBody "")
    (Outcome.httpResponse 200 goodBody "") true true
  refine ⟨?_, ?_⟩
  · rw [h.1 (Or.inl rfl)]; rfl
  · exact h.2 (by decide) (by decide) (by decide)

-- ── Per-response critical flag (useInspection.ts, hasCritical) ──────────────

/-- hasCritical from useInspection.ts: false while there is no result,
otherwise true when some anomaly of the response is Critical or is a
global safety override. -/
def hasCritical (result : Option ValidResponse) : Bool :=
  match result with
  | none => false
  | some r =>
    r.inspection_output.anomalies.any fun a =>
      a.severity == "Critical" || a.is_global_safety_override

-- ── Session aggregation (ConfirmScreen, src/unnamed/part_014) ───────────────

/-- One entry of the legacy context_entries array of an item's AI context. -/
structure CtxEntry where
  component : String
  observation : String
  severity : String
  deriving Repr, DecidableEq

/-- The AI context object attached to an item state, as ConfirmScreen
reads it: the legacy fields its aggregation consults plus the real-schema
inspection_output its rendering path reads. Absent fields are none; an
absent technician_review_flag behaves as false. -/
structure AiContext where
  preliminary_status : Option String
  technician_review_flag : Bool
  context_entries : Option (List CtxEntry)
  inspection_output : Option ValidOutput
  deriving Repr, DecidableEq

/-- One present item state of the session, as ConfirmScreen's CATEGORIES
walk sees it. -/
structure ItemState where
  status : String
  aiContext : Option AiContext
  deriving Repr, DecidableEq

/-- The session aggregate ConfirmScreen accumulates across item states. -/
structure Aggregate where
  globalSafetyOverride : Bool
  preliminaryStatus : String
  technicianReview : Bool
  hasAiContext : Bool
  deriving Repr, DecidableEq

/-- The accumulator's initial values in ConfirmScreen. -/
def initialAggregate : Aggregate :=
  { globalSafetyOverride := false
    preliminaryStatus := "GO"
    technicianReview := false
    hasAiContext := false }

/-- The aiPreliminaryStatus local of the loop body: ctx's
preliminary_status under JS truthiness, so an absent context, an absent
field or an empty string all read as null. -/
def effectivePreliminaryStatus (ctx : Option AiContext) : Option String :=
  match ctx with
  | none => none
  | some c =>
    match c.preliminary_status with
    | none => none
    | some s => if s == "" then none else some s

/-- The isCritical local of the loop body: context_entries is an array and
some entry has severity CRITICAL. -/
def ctxIsCritical (ctx : Option AiContext) : Bool :=
  match ctx with
  | none => false
  | some c =>
    match c.context_entries with
    | none => false
    | some es => es.any fun e => e.severity == "CRITICAL"

/-- The technician_review_flag read of the loop body under JS truthiness. -/
def ctxReviewFlag (ctx : Option AiContext) : Bool :=
  match ctx with
  | none => false
  | some c => c.technician_review_flag

/-- The preliminaryStatus update of the loop body: STOP wins outright,
CAUTION raises a non-STOP accumulator, anything else leaves it alone. -/
def psStep (ps : String) (it : ItemState) : String :=
  if effectivePreliminaryStatus it.aiContext = some "STOP" then "STOP"
  else if effectivePreliminaryStatus it.aiContext = some "CAUTION" ∧ ps ≠ "STOP" then
    "CAUTION"
  else ps

/-- One iteration of ConfirmScreen's CATEGORIES.forEach body over the
mutable aggregate. -/
def stepItem (acc : Aggregate) (it : ItemState) : Aggregate :=
  { globalSafetyOverride := acc.globalSafetyOverride || ctxIsCritical it.aiContext
    preliminaryStatus := psStep acc.preliminaryStatus it
    technicianReview := acc.technicianReview || ctxReviewFlag it.aiContext
    hasAiContext := acc.hasAiContext || (it.aiContext.isSome) }

/-- ConfirmScreen's aggregation over the session's present item states. -/
def aggregateItems (items : List ItemState) : Aggregate :=
  items.foldl stepItem initialAggregate

/-- The anomalies an item carries under the real API schema; empty when the
context or its inspection_output is absent. -/
def itemAnomalies (it : ItemState) : List Anomaly :=
  match it.aiContext with
  | none => []
  | some c =>
    match c.inspection_output with
    | none => []
    | some out => out.anomalies

/-- Modelled from the spec: the aggregate technicianReviewRequired claimed
in section 4.4 — the OR of each item's own review flag and whether the
item carries an anomaly with segment_mismatch_flag. Stated only to compare
against the code's aggregation. -/
def specAggTechnicianReview (items : List ItemState) : Bool :=
  items.any fun it =>
    ctxReviewFlag it.aiContext
      || (itemAnomalies it).any fun a => a.segment_mismatch_flag

/-- Modelled from the spec: the aggregate hasCriticalOverride claimed in
section 4.4 — some anomaly across the items is Critical or a global safety
override. Stated only to compare against the code's aggregation. -/
def specHasCriticalOverride (items : List ItemState) : Bool :=
  items.any fun it =>
    (itemAnomalies it).any fun a =>
      a.severity == "Critical" || a.is_global_safety_override

-- ── Fold projection lemmas ──────────────────────────────────────────────────

theorem foldl_stepItem_technicianReview (l : List ItemState) (acc : Aggregate) :
    (List.foldl stepItem acc l).technicianReview
      = (acc.technicianReview || l.any fun it => ctxReviewFlag it.aiContext) := by
  induction l generalizing acc with
  | nil => simp
  | cons x xs ih =>
    simp only [List.foldl_cons, List.any_cons, ih, stepItem, Bool.or_assoc]

theorem foldl_stepItem_globalSafetyOverride (l : List ItemState) (acc : Aggregate) :
    (List.foldl stepItem acc l).globalSafetyOverride
      = (acc.globalSafetyOverride || l.any fun it => ctxIsCritical it.aiContext) := by
  induction l generalizing acc with
  | nil => simp
  | cons x xs ih =>
    simp only [List.foldl_cons, List.any_cons, ih, stepItem, Bool.or_assoc]

theorem foldl_stepItem_preliminaryStatus (l : List ItemState) (acc : Aggregate) :
    (List.foldl stepItem acc l).preliminaryStatus
      = List.foldl psStep acc.preliminaryStatus l := by
  induction l generalizing acc with
  | nil => rfl
  | cons x xs ih => simp only [List.foldl_cons, ih, stepItem]

-- ── STOP > CAUTION > GO as a rank ───────────────────────────────────────────

/-- The three values ConfirmScreen's accumulator ranges over. -/
def okStatuses : List String := ["GO", "CAUTION", "STOP"]

/-- Numeric rank of a status string under STOP > CAUTION > GO; anything
outside the enum ranks like GO, which is exactly how the fold treats it. -/
def statusRank (s : String) : Nat :=
  if s = "STOP" then 2 else if s = "CAUTION" then 1 else 0

/-- The rank an item contributes: the rank of its effective
aiPreliminaryStatus, with null reading as GO. -/
def itemRank (it : ItemState) : Nat :=
  statusRank ((effectivePreliminaryStatus it.aiContext).getD "GO")

theorem statusRank_le_two (s : String) : statusRank s ≤ 2 := by
  unfold statusRank
  split_ifs <;> omega

theorem psStep_mem (ps : String) (it : ItemState) (h : ps ∈ okStatuses) :
    psStep ps it ∈ okStatuses := by
  unfold psStep
  split_ifs <;> simp_all [okStatuses]

theorem psStep_rank (ps : String) (it : ItemState) (h : ps ∈ okStatuses) :
    statusRank (psStep ps it) = max (statusRank ps) (itemRank it) := by
  simp only [okStatuses, List.mem_cons, List.mem_singleton, List.not_mem_nil,
    or_false] at h
  unfold psStep itemRank
  rcases heff : effectivePreliminaryStatus it.aiContext with _ | s
  · simp [statusRank]
  · simp only [Option.getD_some, Option.some.injEq]
    by_cases hstop : s = "STOP"
    · subst hstop
      have h2 : statusRank "STOP" = 2 := rfl
      simp [h2, Nat.max_eq_right (statusRank_le_two ps)]
    · by_cases hca : s = "CAUTION"
      · subst hca
        by_cases hps : ps = "STOP"
        · subst hps
          simp [hstop, statusRank]
        · have h1 : statusRank ps ≤ 1 := by
            rcases h with rfl | rfl | rfl <;> simp_all [statusRank]
          rw [if_neg (by decide), if_pos ⟨rfl, hps⟩]
          have hC : statusRank "CAUTION" = 1 := rfl
          omega
      · have h0 : statusRank s = 0 := by simp [statusRank, hstop, hca]
        simp [hstop, hca, h0]

theorem foldl_psStep_rank (l : List ItemState) (ps : String) (h : ps ∈ okStatuses) :
    statusRank (List.foldl psStep ps l)
      = List.foldl max (statusRank ps) (l.map itemRank)
    ∧ List.foldl psStep ps l ∈ okStatuses := by
  induction l generalizing ps with
  | nil => exact ⟨rfl, h⟩
  | cons x xs ih =>
    obtain ⟨e, mem⟩ := ih (psStep ps x) (psStep_mem ps x h)
    refine ⟨?_, mem⟩
    simp only [List.foldl_cons, List.map_cons]
    rw [e, psStep_rank ps x h]

theorem foldl_max_perm {l1 l2 : List Nat} (h : l1.Perm l2) :
    ∀ a : Nat, l1.foldl max a = l2.foldl max a := by
  induction h with
  | nil => intro a; rfl
  | cons x _ ih => intro a; simp only [List.foldl_cons]; exact ih _
  | swap x y l => intro a; simp only [List.foldl_cons]; rw [sup_right_comm]
  | trans _ _ ih1 ih2 => intro a; rw [ih1, ih2]

theorem statusRank_inj_on_ok (s t : String) (hs : s ∈ okStatuses)
    (ht : t ∈ okStatuses) (h : statusRank s = statusRank t) : s = t := by
  simp only [okStatuses, List.mem_cons, List.mem_singleton, List.not_mem_nil,
    or_false] at hs ht
  rcases hs with rfl | rfl | rfl <;> rcases ht with rfl | rfl | rfl <;>
    revert h <;> decide

-- ── Claims about hasCritical and the aggregation ────────────────────────────

/-- C6 amended: ConfirmScreen's aggregate technician-review flag is the OR
of each item's own technician_review_flag alone; segment-mismatch flags on
an item's anomalies play no part in it. -/
theorem aggregate_review_is_item_flags_or (items : List ItemState) :
    (aggregateItems items).technicianReview
      = items.any fun it => ctxReviewFlag it.aiContext := by
  rw [aggregateItems, foldl_stepItem_technicianReview]
  simp [initialAggregate]

/-- An item whose only flag is a segment-mismatch anomaly: its own review
flag is false. -/
def segmentMismatchItem : ItemState :=
  { status := "green"
    aiContext := some
      { preliminary_status := none
        technician_review_flag := false
        context_entries := none
        inspection_output := some
          { inspection_summary := none
            anomalies := [{ baseAnomaly with segment_mismatch_flag := true }] } } }

/-- Counterexample to C6: a session holding one item flagged only with
segment_mismatch_flag should, per the claim, force the aggregate review
flag, yet ConfirmScreen's aggregation leaves it false. -/
theorem segment_mismatch_review_counterexample :
    specAggTechnicianReview [segmentMismatchItem] = true
    ∧ (aggregateItems [segmentMismatchItem]).technicianReview = false := by
  constructor <;> rfl

/-- C7 amended: the per-response hasCritical flag of useInspection is true
exactly when some anomaly is Critical or a global safety override (and is
false with no result), but ConfirmScreen's session-level critical override
is the OR of a different predicate: some legacy context entry with severity
CRITICAL; is_global_safety_override is not consulted there. -/
theorem critical_override_semantics (items : List ItemState) (r : ValidResponse) :
    ((aggregateItems items).globalSafetyOverride
      = items.any fun it => ctxIsCritical it.aiContext)
    ∧ (hasCritical (some r) = true ↔
        ∃ a ∈ r.inspection_output.anomalies,
          a.severity = "Critical" ∨ a.is_global_safety_override = true)
    ∧ hasCritical none = false := by
  refine ⟨?_, ?_, rfl⟩
  · rw [aggregateItems, foldl_stepItem_globalSafetyOverride]
    simp [initialAggregate]
  · simp [hasCritical, List.any_eq_true]

/-- An item whose anomaly is a non-Critical global safety override. -/
def overrideOnlyItem : ItemState :=
  { status := "green"
    aiContext := some
      { preliminary_status := none
        technician_review_flag := false
        context_entries := none
        inspection_output := some
          { inspection_summary := none
            anomalies := [{ baseAnomaly with is_global_safety_override := true }] } } }

/-- Counterexample to C7: a result set with one anomaly that is a global
safety override of severity Low should, per the claim, set
hasCriticalOverride, yet ConfirmScreen's aggregation leaves it false. -/
theorem override_not_aggregated_counterexample :
    specHasCriticalOverride [overrideOnlyItem] = true
    ∧ (aggregateItems [overrideOnlyItem]).globalSafetyOverride = false := by
  constructor <;> rfl

/-- Modelled from the spec: the per-item status the claim derives from the
item's anomalies — STOP if any anomaly is Critical, CAUTION if any is
Moderate and none Critical, GO otherwise. The client never performs this
derivation; stated only to compare against the code's aggregation. -/
def specItemStatus (it : ItemState) : String :=
  if (itemAnomalies it).any fun a => a.severity == "Critical" then "STOP"
  else if (itemAnomalies it).any fun a => a.severity == "Moderate" then "CAUTION"
  else "GO"

/-- Modelled from the spec: the claimed aggregate preliminaryStatus — the
maximum of the claimed per-item statuses under STOP > CAUTION > GO. -/
def specPreliminaryStatus (items : List ItemState) : String :=
  if items.any fun it => specItemStatus it == "STOP" then "STOP"
  else if items.any fun it => specItemStatus it == "CAUTION" then "CAUTION"
  else "GO"

/-- An item whose AI context is a raw real-schema extract response: it
carries a Critical anomaly and, the real schema having no such field, no
legacy preliminary_status signal. -/
def criticalAnomalyItem : ItemState :=
  { status := "red"
    aiContext := some
      { preliminary_status := none
        technician_review_flag := false
        context_entries := none
        inspection_output := some
          { inspection_summary := none
            anomalies := [{ baseAnomaly with severity := "Critical" }] } } }

/-- Counterexample to C8: per the claim, a session whose single item
carries an anomaly of severity Critical has aggregate preliminaryStatus
STOP; ConfirmScreen, which reads only the legacy preliminary_status signal
and never derives a status from anomalies, aggregates it to GO. -/
theorem critical_anomaly_status_counterexample :
    specPreliminaryStatus [criticalAnomalyItem] = "STOP"
    ∧ (aggregateItems [criticalAnomalyItem]).preliminaryStatus = "GO" := by
  constructor <;> rfl

/-- C8 amended: the aggregate preliminaryStatus realises the maximum, in
the STOP > CAUTION > GO order (via statusRank), of the items' legacy
preliminary_status signals — absent contexts, absent fields and empty
strings reading as GO, not of statuses derived from the items' anomalies —
always lands in that three-value enum, never decreases when an item is
appended, and is invariant under permuting the result set. -/
theorem aggregate_status_is_max (items items2 : List ItemState) (x : ItemState) :
    statusRank ((aggregateItems items).preliminaryStatus)
      = List.foldl max 0 (items.map itemRank)
    ∧ (aggregateItems items).preliminaryStatus ∈ okStatuses
    ∧ statusRank ((aggregateItems items).preliminaryStatus)
        ≤ statusRank ((aggregateItems (items ++ [x])).preliminaryStatus)
    ∧ (items.Perm items2 →
        (aggregateItems items).preliminaryStatus
          = (aggregateItems items2).preliminaryStatus) := by
  have hGO : ("GO" : String) ∈ okStatuses := by simp [okStatuses]
  have base : ∀ l : List ItemState,
      statusRank ((aggregateItems l).preliminaryStatus)
        = List.foldl max 0 (l.map itemRank)
      ∧ (aggregateItems l).preliminaryStatus ∈ okStatuses := by
    intro l
    have h := foldl_psStep_rank l "GO" hGO
    rw [aggregateItems, foldl_stepItem_preliminaryStatus]
    exact h
  refine ⟨(base items).1, (base items).2, ?_, ?_⟩
  · rw [(base items).1, (base (items ++ [x])).1]
    simp only [List.map_append, List.foldl_append, List.map_cons, List.map_nil,
      List.foldl_cons, List.foldl_nil]
    exact le_max_left _ _
  · intro hp
    apply statusRank_inj_on_ok _ _ (base items).2 (base items2).2
    rw [(base items).1, (base items2).1]
    exact foldl_max_perm (hp.map itemRank) 0

/-- An item state carrying a bare preliminary status, for concrete
aggregation scenarios. -/
def itemWithStatus (s : String) : ItemState :=
  { status := "green"
    aiContext := some
      { preliminary_status := some s
        technician_review_flag := false
        context_entries := none
        inspection_output := none } }

/-- Witness for C8: swapping a CAUTION item and a STOP item leaves the
aggregate status unchanged, and the rank equation holds concretely. -/
theorem aggregate_status_is_max_witness :
    (aggregateItems [itemWithStatus "CAUTION", itemWithStatus "STOP"]).preliminaryStatus
      = (aggregateItems [itemWithStatus "STOP", itemWithStatus "CAUTION"]).preliminaryStatus
    ∧ statusRank
        ((aggregateItems [itemWithStatus "CAUTION", itemWithStatus "STOP"]).preliminaryStatus)
      = List.foldl max 0 ([itemWithStatus "CAUTION", itemWithStatus "STOP"].map itemRank) := by
  have h := aggregate_status_is_max [itemWithStatus "CAUTION", itemWithStatus "STOP"]
    [itemWithStatus "STOP", itemWithStatus "CAUTION"] (itemWithStatus "STOP")
  exact ⟨h.2.2.2 (List.Perm.swap (itemWithStatus "STOP") (itemWithStatus "CAUTION") []),
    h.1⟩

end CatTrack
